import Mathlib

/-!
Verification of the botkit platform-adapter shims (Twilio SMS and Facebook
Messenger adapters) against their natural-language specification.

The JavaScript source is shallowly embedded here:
- webhook payloads and activity passthrough data are modelled by a small
  JSON value type mirroring the dynamic objects of the source;
- property access that can raise a TypeError in JavaScript (reading a field
  of undefined or null) is modelled with Except;
- library calls that live outside this repository (the HMAC-SHA1 digest,
  Twilio request validation, the REST transport) are parameters of the
  embedded functions, since the adapter code only consumes their results.
-/

/-- JSON-like dynamic values, as the adapters receive them from the webhook
body parser and hand them around as channelData. -/
inductive Json where
  | null : Json
  | bool : Bool → Json
  | num : Int → Json
  | str : String → Json
  | arr : List Json → Json
  | obj : List (String × Json) → Json
deriving Repr

namespace Json

mutual

/-- Boolean structural equality on Json values. -/
def beq : Json → Json → Bool
  | .null, .null => true
  | .bool a, .bool b => a == b
  | .num a, .num b => a == b
  | .str a, .str b => a == b
  | .arr a, .arr b => beqList a b
  | .obj a, .obj b => beqPairs a b
  | _, _ => false

/-- Pointwise beq on lists of Json values. -/
def beqList : List Json → List Json → Bool
  | [], [] => true
  | x :: xs, y :: ys => beq x y && beqList xs ys
  | _, _ => false

/-- Pointwise beq on key-value pair lists. -/
def beqPairs : List (String × Json) → List (String × Json) → Bool
  | [], [] => true
  | (k, v) :: xs, (k', v') :: ys => k == k' && beq v v' && beqPairs xs ys
  | _, _ => false

end

mutual

theorem beq_refl : (j : Json) → beq j j = true
  | .null => rfl
  | .bool a => by simp [beq]
  | .num a => by simp [beq]
  | .str a => by simp [beq]
  | .arr l => by simp only [beq]; exact beqList_refl l
  | .obj l => by simp only [beq]; exact beqPairs_refl l

theorem beqList_refl : (l : List Json) → beqList l l = true
  | [] => rfl
  | x :: xs => by simp only [beqList, Bool.and_eq_true]; exact ⟨beq_refl x, beqList_refl xs⟩

theorem beqPairs_refl : (l : List (String × Json)) → beqPairs l l = true
  | [] => rfl
  | (k, v) :: xs => by
      simp only [beqPairs, Bool.and_eq_true, beq_self_eq_true, true_and]
      exact ⟨beq_refl v, beqPairs_refl xs⟩

end

mutual

theorem eq_of_beq : (a b : Json) → beq a b = true → a = b
  | .null, .null, _ => rfl
  | .bool a, .bool b, h => by simp only [beq, beq_iff_eq] at h; rw [h]
  | .num a, .num b, h => by simp only [beq, beq_iff_eq] at h; rw [h]
  | .str a, .str b, h => by simp only [beq, beq_iff_eq] at h; rw [h]
  | .arr l, .arr m, h => by
      simp only [beq] at h
      rw [eqList_of_beq l m h]
  | .obj l, .obj m, h => by
      simp only [beq] at h
      rw [eqPairs_of_beq l m h]

theorem eqList_of_beq : (l m : List Json) → beqList l m = true → l = m
  | [], [], _ => rfl
  | x :: xs, y :: ys, h => by
      simp only [beqList, Bool.and_eq_true] at h
      rw [eq_of_beq x y h.1, eqList_of_beq xs ys h.2]

theorem eqPairs_of_beq : (l m : List (String × Json)) → beqPairs l m = true → l = m
  | [], [], _ => rfl
  | (k, v) :: xs, (k', v') :: ys, h => by
      simp only [beqPairs, Bool.and_eq_true, beq_iff_eq] at h
      rw [h.1.1, eq_of_beq v v' h.1.2, eqPairs_of_beq xs ys h.2]

end

instance : DecidableEq Json := fun a b =>
  if h : beq a b = true then isTrue (eq_of_beq a b h)
  else isFalse (fun he => h (he ▸ beq_refl a))

/-- Property read on a JSON object: returns the value of the first matching
key, none otherwise (JavaScript: undefined). Reading a property of a
non-object primitive yields undefined as well. -/
def get : Json → String → Option Json
  | .obj fields, k => fields.lookup k
  | _, _ => none

/-- Key update on an association list, JavaScript object semantics: an
existing key keeps its position, a new key is appended. -/
def setPairs : List (String × Json) → String → Json → List (String × Json)
  | [], k, v => [(k, v)]
  | (k', v') :: rest, k, v =>
      if k' = k then (k, v) :: rest else (k', v') :: setPairs rest k v

/-- Property assignment on a JSON object. Assignment on a primitive is a
silent no-op (the source never does this on null or undefined). -/
def set : Json → String → Json → Json
  | .obj fields, k, v => .obj (setPairs fields k v)
  | j, _, _ => j

end Json

/-- JavaScript truthiness of a defined value. -/
def truthyJ : Json → Bool
  | .null => false
  | .bool b => b
  | .num n => n != 0
  | .str s => s != ""
  | .arr _ => true
  | .obj _ => true

/-- JavaScript truthiness of a possibly-undefined value. -/
def truthy : Option Json → Bool
  | none => false
  | some j => truthyJ j

/-- Chained optional property read: o.k when o itself may be undefined and
the source has already guarded o with a truthiness check. -/
def optGet (o : Option Json) (k : String) : Option Json :=
  o.bind (fun j => j.get k)

/-- Property read that models the JavaScript TypeError raised when the base
value is undefined or null. -/
def jsGetField (v : Option Json) (k : String) : Except String (Option Json) :=
  match v with
  | none => .error "TypeError: cannot read a property of undefined"
  | some .null => .error "TypeError: cannot read a property of null"
  | some j => .ok (j.get k)

/-- Iterating an indexed for loop over payload.length, as the source does:
undefined or null raises a TypeError, an array iterates its elements, other
values have an undefined length and the loop body never runs. -/
def jsIterate : Option Json → Except String (List Json)
  | none => .error "TypeError: cannot read length of undefined"
  | some .null => .error "TypeError: cannot read length of null"
  | some (.arr l) => .ok l
  | some _ => .ok []

/-- Leading decimal digits of a character list. -/
def takeDigits : List Char → List Char
  | c :: cs => if c.isDigit then c :: takeDigits cs else []
  | [] => []

/-- Numeric value of a digit list. -/
def digitsToNat (l : List Char) : Nat :=
  l.foldl (fun a c => a * 10 + (c.toNat - 48)) 0

/-- Model of the JavaScript parseInt applied to a string in base 10:
leading whitespace is skipped, an optional sign is read, then the longest
digit prefix; none models NaN. -/
def jsParseInt (s : String) : Option Int :=
  let cs := s.data.dropWhile (fun c => c = ' ' ∨ c = '\t' ∨ c = '\n' ∨ c = '\r')
  match cs with
  | '-' :: rest =>
      let ds := takeDigits rest
      if ds = [] then none else some (-(digitsToNat ds : Int))
  | '+' :: rest =>
      let ds := takeDigits rest
      if ds = [] then none else some (digitsToNat ds)
  | _ =>
      let ds := takeDigits cs
      if ds = [] then none else some (digitsToNat ds)

/-- Model of parseInt applied to a webhook field value. The Twilio webhook
delivers form-encoded fields, so the value is a string in every real
delivery; a plain number is coerced through its decimal representation. -/
def jsParseIntJson : Option Json → Option Int
  | some (.str s) => jsParseInt s
  | some (.num n) => some n
  | _ => none

/-- The two activity types the adapters emit (botbuilder ActivityTypes). -/
inductive ActivityType where
  | message : ActivityType
  | event : ActivityType
deriving DecidableEq, Repr

/-- The generic activity envelope the adapters construct and hand to the
logic callback; fields unused by a given adapter stay none. -/
structure Activity where
  id : Option Json
  channelId : Option String
  conversation_id : Option Json
  from_id : Option Json
  from_name : Option Json
  recipient_id : Option Json
  recipient_name : Option Json
  text : Option Json
  channelData : Json
  type : ActivityType
deriving DecidableEq, Repr

/-- The HTTP response state the adapter writes through res. -/
structure HttpState where
  status : Option Nat
  ended : Bool
deriving DecidableEq, Repr

/-- Outcome of one processActivity call: the response state, the activities
dispatched to the logic callback in order, and the error the returned
promise rejects with, if any. -/
structure ProcOutcome where
  http : HttpState
  dispatched : List Activity
  err : Option String
deriving DecidableEq, Repr

/-! ## Twilio SMS adapter (packages/botbuilder-adapter-twilio-sms/lib/twilio_adapter.js) -/

/-- TwilioAdapter.verifySignature: the request passes when the
x-twilio-signature header is truthy and Twilio.validateRequest accepts the
auth token, signature, validation url and body. The validateRequest call is
library code outside this repository, so its boolean result is a parameter. -/
def twilioVerifySignature (sigHeader : Option String) (validateResult : Bool) : Bool :=
  (match sigHeader with
   | some s => s != ""
   | none => false) && validateResult

/-- The NumMedia attachment test in TwilioAdapter.processActivity:
event.NumMedia is truthy and parseInt(event.NumMedia) is greater than 0. -/
def twilioMediaCond (event : Json) : Bool :=
  truthy (event.get "NumMedia") &&
    (match jsParseIntJson (event.get "NumMedia") with
     | some n => decide (0 < n)
     | none => false)

/-- The activity TwilioAdapter.processActivity builds from the webhook body.
The channelData starts as the event object itself and is then extended with
botkitEventType when the webhook carries media. -/
def twilioBuildActivity (event : Json) : Activity :=
  { id := event.get "MessageSid"
    channelId := some "twilio-sms"
    conversation_id := event.get "From"
    from_id := event.get "From"
    from_name := none
    recipient_id := event.get "To"
    recipient_name := none
    text := event.get "Body"
    channelData :=
      if twilioMediaCond event then event.set "botkitEventType" (.str "picture_message")
      else event
    type := ActivityType.message }

/-- TwilioAdapter.processActivity: verify the signature; on success build
the single activity, dispatch it to the logic callback and answer with the
per-turn status (200 unless the callback overrode it, not modelled); on
failure answer 400 with an error body and dispatch nothing. -/
def twilioProcessActivity (sigHeader : Option String) (validateResult : Bool)
    (event : Json) : ProcOutcome :=
  if twilioVerifySignature sigHeader validateResult then
    { http := { status := some 200, ended := true }
      dispatched := [twilioBuildActivity event]
      err := none }
  else
    { http := { status := some 400, ended := true }
      dispatched := []
      err := none }

/-- The outbound message shape produced by TwilioAdapter.activityToTwilio. -/
structure TwilioOutMessage where
  body : Option Json
  from_number : String
  to_number : Option Json
  mediaUrl : Option Json
deriving DecidableEq, Repr

/-- TwilioAdapter.activityToTwilio: body from the activity text, from the
configured twilio_number, to from the conversation id, mediaUrl from the
channelData passthrough when present. -/
def activityToTwilio (twilio_number : String) (activity : Activity) : TwilioOutMessage :=
  let base : TwilioOutMessage :=
    { body := activity.text
      from_number := twilio_number
      to_number := activity.conversation_id
      mediaUrl := none }
  if truthyJ activity.channelData && truthy (activity.channelData.get "mediaUrl") then
    { base with mediaUrl := activity.channelData.get "mediaUrl" }
  else base

/-- Loop body of TwilioAdapter.sendActivities. Only Message activities are
translated and sent; a transport rejection propagates immediately, so the
promise rejects with it. The second component records every transport call
made, in order. -/
def twilioSendLoop (twilio_number : String)
    (create : TwilioOutMessage → Except String Json) :
    List Activity → List (Option Json) → List TwilioOutMessage →
      Except String (List (Option Json)) × List TwilioOutMessage
  | [], resps, calls => (.ok resps, calls)
  | a :: rest, resps, calls =>
      if a.type = ActivityType.message then
        let m := activityToTwilio twilio_number a
        match create m with
        | .error e => (.error e, calls ++ [m])
        | .ok r => twilioSendLoop twilio_number create rest (resps ++ [r.get "sid"]) (calls ++ [m])
      else twilioSendLoop twilio_number create rest resps calls

/-- TwilioAdapter.sendActivities over a list of outgoing activities. -/
def twilioSendActivities (twilio_number : String)
    (create : TwilioOutMessage → Except String Json) (activities : List Activity) :
    Except String (List (Option Json)) × List TwilioOutMessage :=
  twilioSendLoop twilio_number create activities [] []

/-! ## Facebook adapter (packages/botbuilder-adapter-facebook/lib/facebook_adapter.js) -/

/-- FacebookAdapter.verifySignature: the x-hub-signature header must be
exactly the string sha1= followed by the hex HMAC-SHA1 digest of the raw
request body under the app secret. The digest function itself is the node
crypto library, outside this repository, so it is a parameter. -/
def fbVerifySignature (hmacSha1Hex : String → String → String) (app_secret : String)
    (sigHeader : Option String) (rawBody : String) : Bool :=
  sigHeader == some ("sha1=" ++ hmacSha1Hex app_secret rawBody)

/-- The opt-in backfill guard in FacebookAdapter.processSingleMessage:
message.sender is falsy while message.optin and message.optin.user_ref are
truthy. -/
def fbBackfillCond (message : Json) : Bool :=
  !truthy (message.get "sender") && truthy (message.get "optin") &&
    truthy (optGet (message.get "optin") "user_ref")

/-- The sender backfill itself: message.sender becomes an object holding
the opt-in user reference as its id. -/
def fbBackfill (message : Json) : Json :=
  if fbBackfillCond message then
    message.set "sender" (Json.obj [("id", ((optGet (message.get "optin") "user_ref").getD Json.null))])
  else message

/-- The field-copy loop at the end of the message branch of
processSingleMessage: every key of message.message is assigned onto the
channelData object (which is the message object itself). -/
def flattenInto (target : Json) (src : Json) : Json :=
  match src with
  | .obj fields => fields.foldl (fun t kv => t.set kv.1 kv.2) target
  | _ => target

/-- FacebookAdapter.processSingleMessage: backfill the sender from the
opt-in reference when absent, build the activity skeleton around the sender
and recipient ids with the message object as channelData, then reclassify:
a message sub-event becomes a Message (demoted back to Event when it is an
echo) with the message fields flattened into channelData, a postback
becomes a Message carrying the postback payload as text. Reading an id off
a missing sender or recipient raises a TypeError, modelled as an error. -/
def processSingleMessage (message0 : Json) : Except String Activity :=
  let message := fbBackfill message0
  match jsGetField (message.get "sender") "id" with
  | .error e => .error e
  | .ok senderId =>
    match jsGetField (message.get "recipient") "id" with
    | .error e => .error e
    | .ok recipientId =>
      let base : Activity :=
        { id := none
          channelId := some "facebook"
          conversation_id := senderId
          from_id := senderId
          from_name := senderId
          recipient_id := recipientId
          recipient_name := recipientId
          text := some Json.null
          channelData := message
          type := ActivityType.event }
      if truthy (message.get "message") then
        let msgVal := (message.get "message").getD Json.null
        let t := if truthy (msgVal.get "is_echo") then ActivityType.event
                 else ActivityType.message
        .ok { base with
                type := t
                text := msgVal.get "text"
                channelData := flattenInto message msgVal }
      else if truthy (message.get "postback") then
        .ok { base with
                type := ActivityType.message
                text := optGet (message.get "postback") "payload" }
      else .ok base

/-- Sequential dispatch of a list of sub-events through
processSingleMessage, accumulating the activities handed to the logic
callback; a TypeError aborts the loop and carries the error out. -/
def processMessages : List Json → List Activity → List Activity × Option String
  | [], acc => (acc, none)
  | m :: rest, acc =>
      match processSingleMessage m with
      | .error e => (acc, some e)
      | .ok a => processMessages rest (acc ++ [a])

/-- The payload selection at the top of the entry loop of
FacebookAdapter.processActivity: entry.changes when truthy, otherwise
entry.messaging when truthy, otherwise the initial null. -/
def entryPayload (entry : Json) : Option Json :=
  if truthy (entry.get "changes") then entry.get "changes"
  else if truthy (entry.get "messaging") then entry.get "messaging"
  else none

/-- Processing of one entry of the webhook body: iterate the selected
payload through processSingleMessage, then, when entry.standby is truthy,
iterate entry.standyby — the misspelled property the source actually
reads — marking each element with standby true before dispatch. -/
def processEntry (entry : Json) (acc : List Activity) : List Activity × Option String :=
  match jsIterate (entryPayload entry) with
  | .error e => (acc, some e)
  | .ok msgs =>
      match processMessages msgs acc with
      | (acc2, some e) => (acc2, some e)
      | (acc2, none) =>
          if truthy (entry.get "standby") then
            match jsIterate (entry.get "standyby") with
            | .error e => (acc2, some e)
            | .ok smsgs =>
                processMessages (smsgs.map (fun m => m.set "standby" (Json.bool true))) acc2
          else (acc2, none)

/-- The entry loop of FacebookAdapter.processActivity; an exception thrown
while handling one entry aborts the remaining entries. -/
def processEntries : List Json → List Activity → List Activity × Option String
  | [], acc => (acc, none)
  | e :: rest, acc =>
      match processEntry e acc with
      | (acc2, some err) => (acc2, some err)
      | (acc2, none) => processEntries rest acc2

/-- FacebookAdapter.processActivity: verify the HMAC signature — on
mismatch the source sets status 401 and throws, so nothing is dispatched
and the promise rejects — then walk event.entry, dispatching every
sub-event in order, and finally answer 200. When event.entry is falsy no
response is written at all. -/
def fbProcessActivity (hmacSha1Hex : String → String → String) (app_secret : String)
    (sigHeader : Option String) (rawBody : String) (body : Json) : ProcOutcome :=
  if fbVerifySignature hmacSha1Hex app_secret sigHeader rawBody then
    if truthy (body.get "entry") then
      match jsIterate (body.get "entry") with
      | .error e => { http := { status := none, ended := false }, dispatched := [], err := some e }
      | .ok entries =>
          match processEntries entries [] with
          | (acc, none) =>
              { http := { status := some 200, ended := true }, dispatched := acc, err := none }
          | (acc, some e) =>
              { http := { status := none, ended := false }, dispatched := acc, err := some e }
    else { http := { status := none, ended := false }, dispatched := [], err := none }
  else
    { http := { status := some 401, ended := false }
      dispatched := []
      err := some "Invalid signature on incoming request" }

/-- The FacebookAPI client constructed by FacebookAdapter.getAPI; the actual
REST transport lives in facebook_api.js and is delegated to the request
library, so only the credentials it is constructed with matter here. -/
structure FacebookAPI where
  token : String
  secret : String
  api_host : String
  api_version : String
deriving DecidableEq, Repr

/-- The FacebookAdapter options relevant to getAPI. getAccessTokenForPage
is the caller-supplied credential lookup of multi-tenancy mode; it receives
the page id value taken from the activity and resolves to a token or a
falsy result. -/
structure FacebookAdapterOptions where
  access_token : Option String
  app_secret : String
  api_host : String
  api_version : String
  getAccessTokenForPage : Option Json → Option String

/-- Truthiness of an optional string option, as the source tests it. -/
def strTruthy : Option String → Bool
  | some s => s != ""
  | none => false

/-- The strict echo test of getAPI: activity.channelData.message.is_echo is
the boolean true (strict equality in the source). -/
def fbIsEcho (activity : Activity) : Bool :=
  truthyJ activity.channelData && truthy (activity.channelData.get "message") &&
    (optGet (activity.channelData.get "message") "is_echo" == some (Json.bool true))

/-- The page id getAPI resolves the credentials for: the activity recipient
in general, but the activity sender when the activity is an echo of the
page itself. -/
def fbPageIdOf (activity : Activity) : Option Json :=
  if fbIsEcho activity then activity.from_id else activity.recipient_id

/-- FacebookAdapter.getAPI: with a static access_token, build the client
from it directly. Otherwise resolve the page id from the activity recipient
— or from the activity sender when the activity is an echo — look the token
up, throw when the token is falsy, and build the client. Without a truthy
recipient id no client is created and the call resolves to undefined. -/
def getAPI (opts : FacebookAdapterOptions) (activity : Activity) :
    Except String (Option FacebookAPI) :=
  if strTruthy opts.access_token then
    .ok (some
      { token := opts.access_token.getD ""
        secret := opts.app_secret
        api_host := opts.api_host
        api_version := opts.api_version })
  else
    if truthy activity.recipient_id then
      match opts.getAccessTokenForPage (fbPageIdOf activity) with
      | none => .error "Missing credentials for page."
      | some t =>
          if t = "" then .error "Missing credentials for page."
          else .ok (some
            { token := t
              secret := opts.app_secret
              api_host := opts.api_host
              api_version := opts.api_version })
    else .ok none

/-- The outbound message shape produced by
FacebookAdapter.activityToFacebook. -/
structure FbOutMessage where
  recipient_id : Option Json
  text : Option Json
  sticker_id : Option Json
  attachment : Option Json
  quick_replies : Option Json
  messaging_type : Json
  tag : Option Json
  notification_type : Option Json
  persona_id : Option Json
  sender_action : Option Json
deriving DecidableEq, Repr

/-- The per-item fixups of the quick-reply mapping: a quick reply without a
truthy content_type gets content_type text on the copy. -/
def fixQuickReply (item : Json) : Json :=
  if truthy (item.get "content_type") then item
  else item.set "content_type" (Json.str "text")

/-- One conditional field override of the outbound message: exactly the
shape of each if statement in activityToFacebook, which assigns a field
from channelData only when the channelData value is truthy. -/
def updateWhen (v : Option Json) (upd : FbOutMessage → FbOutMessage)
    (m : FbOutMessage) : FbOutMessage :=
  if truthy v then upd m else m

/-- The sequence of conditional overrides activityToFacebook applies — in
source order — for messaging_type, tag, sticker_id, attachment,
persona_id, notification_type and sender_action. -/
def fbApplyChannelFields (cd : Json) (base : FbOutMessage) : FbOutMessage :=
  updateWhen (cd.get "sender_action")
    (fun m => { m with sender_action := cd.get "sender_action" })
    (updateWhen (cd.get "notification_type")
      (fun m => { m with notification_type := cd.get "notification_type" })
      (updateWhen (cd.get "persona_id")
        (fun m => { m with persona_id := cd.get "persona_id" })
        (updateWhen (cd.get "attachment")
          (fun m => { m with attachment := cd.get "attachment" })
          (updateWhen (cd.get "sticker_id")
            (fun m => { m with sticker_id := cd.get "sticker_id" })
            (updateWhen (cd.get "tag")
              (fun m => { m with tag := cd.get "tag" })
              (updateWhen (cd.get "messaging_type")
                (fun m =>
                  { m with messaging_type := (cd.get "messaging_type").getD Json.null })
                base))))))

/-- FacebookAdapter.activityToFacebook: the recipient is the conversation
id and the text is the activity text; the remaining platform-specific
fields come from the channelData passthrough when truthy there, and stay
unset otherwise, applied in source order as a pipeline of conditional
overrides. Mapping over a truthy non-array quick_replies value raises a
TypeError, which this function surfaces as an error. -/
def activityToFacebook (activity : Activity) : Except String FbOutMessage :=
  let base : FbOutMessage :=
    { recipient_id := activity.conversation_id
      text := activity.text
      sticker_id := none
      attachment := none
      quick_replies := none
      messaging_type := Json.str "RESPONSE"
      tag := none
      notification_type := none
      persona_id := none
      sender_action := none }
  if truthyJ activity.channelData then
    let cd := activity.channelData
    let m7 : FbOutMessage := fbApplyChannelFields cd base
    if truthy (cd.get "quick_replies") then
      match cd.get "quick_replies" with
      | some (.arr items) =>
          .ok { m7 with quick_replies := some (.arr (items.map fixQuickReply)) }
      | _ => .error "TypeError: quick_replies.map is not a function"
    else .ok m7
  else .ok base

/-- Loop body of FacebookAdapter.sendActivities. Only Message activities
are translated. The translation itself runs outside the try block, so its
TypeError rejects the promise; everything inside the try block — resolving
the API client and the transport call — is caught, logged and skipped, so a
transport failure never rejects. The second component records every
transport call actually made, in order. -/
def fbSendLoop (opts : FacebookAdapterOptions)
    (callAPI : FacebookAPI → FbOutMessage → Except String Json) (ctx : Activity) :
    List Activity → List (Option Json) → List FbOutMessage →
      Except String (List (Option Json)) × List FbOutMessage
  | [], resps, calls => (.ok resps, calls)
  | a :: rest, resps, calls =>
      if a.type = ActivityType.message then
        match activityToFacebook a with
        | .error e => (.error e, calls)
        | .ok m =>
            match getAPI opts ctx with
            | .error _ => fbSendLoop opts callAPI ctx rest resps calls
            | .ok none => fbSendLoop opts callAPI ctx rest resps calls
            | .ok (some api) =>
                match callAPI api m with
                | .error _ => fbSendLoop opts callAPI ctx rest resps (calls ++ [m])
                | .ok r =>
                    fbSendLoop opts callAPI ctx rest
                      (resps ++ (if truthyJ r then [r.get "message_id"] else []))
                      (calls ++ [m])
      else fbSendLoop opts callAPI ctx rest resps calls

/-- FacebookAdapter.sendActivities over a list of outgoing activities,
given the incoming context activity its API client is resolved from. -/
def fbSendActivities (opts : FacebookAdapterOptions)
    (callAPI : FacebookAPI → FbOutMessage → Except String Json) (ctx : Activity)
    (activities : List Activity) :
    Except String (List (Option Json)) × List FbOutMessage :=
  fbSendLoop opts callAPI ctx activities [] []

/-! ## Helper lemmas -/

deriving instance DecidableEq for Except

theorem Json.lookup_setPairs_self (fs : List (String × Json)) (k : String) (v : Json) :
    (Json.setPairs fs k v).lookup k = some v := by
  induction fs with
  | nil => simp [Json.setPairs, List.lookup]
  | cons kv rest ih =>
      obtain ⟨k', v'⟩ := kv
      by_cases h : k' = k
      · simp [Json.setPairs, h, List.lookup]
      · simp [Json.setPairs, if_neg h, List.lookup, beq_false_of_ne (Ne.symm h), ih]

theorem Json.lookup_setPairs_ne (fs : List (String × Json)) (k k' : String) (v : Json)
    (h : k' ≠ k) : (Json.setPairs fs k v).lookup k' = fs.lookup k' := by
  induction fs with
  | nil => simp [Json.setPairs, List.lookup, beq_false_of_ne h]
  | cons kv rest ih =>
      obtain ⟨k0, v0⟩ := kv
      by_cases h0 : k0 = k
      · subst h0
        simp [Json.setPairs, List.lookup, beq_false_of_ne h]
      · simp only [Json.setPairs, if_neg h0, List.lookup]
        by_cases h1 : k' = k0
        · simp [h1]
        · simp [beq_false_of_ne h1, ih]

theorem Json.get_set_self (fs : List (String × Json)) (k : String) (v : Json) :
    ((Json.obj fs).set k v).get k = some v := by
  simp [Json.set, Json.get, Json.lookup_setPairs_self]

theorem Json.get_set_ne (j : Json) (k k' : String) (v : Json) (h : k' ≠ k) :
    (j.set k v).get k' = j.get k' := by
  cases j with
  | obj fs => simp [Json.set, Json.get, Json.lookup_setPairs_ne fs k k' v h]
  | null => rfl
  | bool b => rfl
  | num n => rfl
  | str s => rfl
  | arr l => rfl

theorem truthy_some_eq (v : Json) : truthy (some v) = truthyJ v := rfl

theorem truthy_some (o : Option Json) (h : truthy o = true) :
    ∃ v, o = some v ∧ truthyJ v = true := by
  cases o with
  | none => simp [truthy] at h
  | some v => exact ⟨v, rfl, h⟩

theorem truthyJ_ne_null (v : Json) (h : truthyJ v = true) : v ≠ Json.null := by
  intro he
  rw [he] at h
  simp [truthyJ] at h

theorem jsGetField_of_truthy (o : Option Json) (k : String) (h : truthy o = true) :
    jsGetField o k = .ok (optGet o k) := by
  obtain ⟨v, rfl, hv⟩ := truthy_some o h
  cases v with
  | null => simp [truthyJ] at hv
  | bool b => rfl
  | num n => rfl
  | str s => rfl
  | arr l => rfl
  | obj fs => rfl

theorem get_some_obj (j : Json) (k : String) (v : Json) (h : j.get k = some v) :
    ∃ fs, j = Json.obj fs := by
  cases j with
  | obj fs => exact ⟨fs, rfl⟩
  | null => simp [Json.get] at h
  | bool b => simp [Json.get] at h
  | num n => simp [Json.get] at h
  | str s => simp [Json.get] at h
  | arr l => simp [Json.get] at h

theorem jsParseInt_ne_empty (s : String) (n : Int) (h : jsParseInt s = some n) :
    s ≠ "" := by
  intro he
  rw [he] at h
  simp [jsParseInt, takeDigits] at h

theorem list_get_set_of_lt {α : Type} (l : List α) (i : Nat) (a : α) (h : i < l.length) :
    (l.set i a).get? i = some a := by
  induction l generalizing i with
  | nil => simp at h
  | cons x xs ih =>
      cases i with
      | zero => rfl
      | succ j =>
          simp only [List.set, List.get?]
          exact ih j (Nat.lt_of_succ_lt_succ h)

/-- A single-byte mutation of a string: some position holds a different
character, everything else is unchanged. -/
def IsSingleByteMutation (s t : String) : Prop :=
  ∃ i c, i < s.data.length ∧ s.data.get? i ≠ some c ∧ t.data = s.data.set i c

theorem ne_of_singleByteMutation (s t : String) (h : IsSingleByteMutation s t) :
    t ≠ s := by
  obtain ⟨i, c, hi, hne, hd⟩ := h
  intro he
  apply hne
  rw [← list_get_set_of_lt s.data i c hi, ← hd, he]

/-! ## Claims -/

/-- Claim C1: for every inbound webhook request on which signature or token
verification fails, the adapter writes an HTTP 400 (Twilio) or 401
(Facebook) error status, never invokes the logic callback and synthesizes
no activity; and the logic callback is invoked only when verification
returns true. -/
theorem C1_verification_gates_dispatch :
    (∀ hm s hdr raw body, fbVerifySignature hm s hdr raw = false →
        (fbProcessActivity hm s hdr raw body).http.status = some 401 ∧
        (fbProcessActivity hm s hdr raw body).dispatched = []) ∧
    (∀ hdr v ev, twilioVerifySignature hdr v = false →
        (twilioProcessActivity hdr v ev).http.status = some 400 ∧
        (twilioProcessActivity hdr v ev).dispatched = []) ∧
    (∀ hm s hdr raw body, (fbProcessActivity hm s hdr raw body).dispatched ≠ [] →
        fbVerifySignature hm s hdr raw = true) ∧
    (∀ hdr v ev, (twilioProcessActivity hdr v ev).dispatched ≠ [] →
        twilioVerifySignature hdr v = true) := by
  refine ⟨?_, ?_, ?_, ?_⟩
  · intro hm s hdr raw body h
    simp [fbProcessActivity, h]
  · intro hdr v ev h
    simp [twilioProcessActivity, h]
  · intro hm s hdr raw body h
    by_contra hc
    rw [Bool.not_eq_true] at hc
    simp [fbProcessActivity, hc] at h
  · intro hdr v ev h
    by_contra hc
    rw [Bool.not_eq_true] at hc
    simp [twilioProcessActivity, hc] at h

/-- Witness for C1 at a concrete unverified request on each adapter. -/
theorem C1_witness :
    fbVerifySignature (fun _ _ => "d") "sec" none "rb" = false ∧
    (fbProcessActivity (fun _ _ => "d") "sec" none "rb" Json.null).http.status = some 401 ∧
    (fbProcessActivity (fun _ _ => "d") "sec" none "rb" Json.null).dispatched = [] ∧
    twilioVerifySignature none true = false ∧
    (twilioProcessActivity none true Json.null).http.status = some 400 ∧
    (twilioProcessActivity none true Json.null).dispatched = [] := by
  have h1 := C1_verification_gates_dispatch.1 (fun _ _ => "d") "sec" none "rb" Json.null (by decide)
  have h2 := C1_verification_gates_dispatch.2.1 none true Json.null (by decide)
  exact ⟨by decide, h1.1, h1.2, by decide, h2.1, h2.2⟩

/-- Claim C2: the Facebook raw-body HMAC verification succeeds exactly when
the signature header equals sha1= followed by the hex HMAC-SHA1 digest of
the raw body under the app secret; every validly signed request verifies,
any single-byte mutation of the signature header fails, and any mutation of
the body whose digest differs from the original digest fails (the digest
function is a parameter of the embedding, collision freeness being the
cryptographic property of HMAC-SHA1 itself). -/
theorem C2_fb_signature_characterisation (hmac : String → String → String)
    (secret raw : String) :
    (∀ hdr, fbVerifySignature hmac secret hdr raw = true ↔
        hdr = some ("sha1=" ++ hmac secret raw)) ∧
    fbVerifySignature hmac secret (some ("sha1=" ++ hmac secret raw)) raw = true ∧
    (∀ h', IsSingleByteMutation ("sha1=" ++ hmac secret raw) h' →
        fbVerifySignature hmac secret (some h') raw = false) ∧
    (∀ raw', hmac secret raw' ≠ hmac secret raw →
        fbVerifySignature hmac secret (some ("sha1=" ++ hmac secret raw)) raw' = false) := by
  refine ⟨?_, ?_, ?_, ?_⟩
  · intro hdr
    simp [fbVerifySignature]
  · simp [fbVerifySignature]
  · intro h' hmut
    have hne := ne_of_singleByteMutation _ _ hmut
    simp only [fbVerifySignature, beq_eq_false_iff_ne, ne_eq, Option.some.injEq]
    exact hne
  · intro raw' hne
    simp only [fbVerifySignature, beq_eq_false_iff_ne, ne_eq, Option.some.injEq]
    intro he
    exact hne (by
      have hd := congrArg String.data he
      simp only [String.data_append] at hd
      exact (String.ext (List.append_cancel_left hd)).symm)

/-- Witness for C2 with a concrete digest function, secret and body: the
valid header verifies, a one-byte header mutation fails, and a body whose
digest differs fails. -/
theorem C2_witness :
    IsSingleByteMutation ("sha1=" ++ (fun s b => s ++ b) "k" "body") "Xha1=kbody" ∧
    fbVerifySignature (fun s b => s ++ b) "k"
      (some ("sha1=" ++ (fun s b => s ++ b) "k" "body")) "body" = true ∧
    fbVerifySignature (fun s b => s ++ b) "k" (some "Xha1=kbody") "body" = false ∧
    fbVerifySignature (fun s b => s ++ b) "k"
      (some ("sha1=" ++ (fun s b => s ++ b) "k" "body")) "bodyX" = false := by
  have hmut : IsSingleByteMutation ("sha1=" ++ (fun s b => s ++ b) "k" "body") "Xha1=kbody" :=
    ⟨0, 'X', by decide, by decide, by decide⟩
  refine ⟨hmut, (C2_fb_signature_characterisation (fun s b => s ++ b) "k" "body").2.1,
    (C2_fb_signature_characterisation (fun s b => s ++ b) "k" "body").2.2.1 "Xha1=kbody" hmut,
    (C2_fb_signature_characterisation (fun s b => s ++ b) "k" "body").2.2.2 "bodyX" (by decide)⟩

/-- A normal messaging sub-event for the C3 failing input. -/
def fbDeliveryMsg : Json :=
  .obj [("sender", .obj [("id", .str "u1")]),
        ("recipient", .obj [("id", .str "p1")]),
        ("message", .obj [("text", .str "hi")])]

/-- A standby sub-event for the C3 failing input. -/
def fbStandbyMsg : Json :=
  .obj [("sender", .obj [("id", .str "u2")]),
        ("recipient", .obj [("id", .str "p1")]),
        ("message", .obj [("text", .str "waiting")])]

/-- A verified webhook body with one entry holding one normal sub-event and
one standby sub-event: two message-like sub-events in total. -/
def fbStandbyBody : Json :=
  .obj [("entry", .arr [
    .obj [("messaging", .arr [fbDeliveryMsg]), ("standby", .arr [fbStandbyMsg])]])]

/-- Claim C3: on the failing input — a verified delivery whose entry
carries one messaging sub-event and one standby sub-event — the source
dispatches only the messaging sub-event and then throws a TypeError,
because the standby branch reads the misspelled property entry.standyby,
which is always undefined; the standby sub-event is never dispatched, no
200 is written and the promise rejects, where the claim (and the clear
intent of the surrounding code) expects two sequential dispatches. -/
theorem C3_standby_typo_drops_standby_events :
    (fbProcessActivity (fun _ r => r) "s" (some ("sha1=" ++ "raw")) "raw"
        fbStandbyBody).dispatched.length = 1 ∧
    (fbProcessActivity (fun _ r => r) "s" (some ("sha1=" ++ "raw")) "raw"
        fbStandbyBody).err = some "TypeError: cannot read length of undefined" ∧
    (fbProcessActivity (fun _ r => r) "s" (some ("sha1=" ++ "raw")) "raw"
        fbStandbyBody).http.status = none := by
  decide

/-- A Message activity used in the C4 inputs (Facebook side). -/
def c4FbActivity : Activity :=
  { id := none
    channelId := some "facebook"
    conversation_id := some (.str "u1")
    from_id := none
    from_name := none
    recipient_id := none
    recipient_name := none
    text := some (.str "hello")
    channelData := Json.null
    type := ActivityType.message }

/-- A Message activity used in the C4 inputs (Twilio side). -/
def c4TwilioActivity : Activity :=
  { id := none
    channelId := some "twilio-sms"
    conversation_id := some (.str "+15551234567")
    from_id := none
    from_name := none
    recipient_id := none
    recipient_name := none
    text := some (.str "hello")
    channelData := Json.null
    type := ActivityType.message }

/-- Facebook adapter options with a static access token, for the C4 send
scenarios. -/
def c4Opts : FacebookAdapterOptions :=
  { access_token := some "T"
    app_secret := "S"
    api_host := "graph.facebook.com"
    api_version := "v3.2"
    getAccessTokenForPage := fun _ => none }

/-- Counterexample to claim C4: a Facebook send whose transport call fails
resolves normally with an empty response list — the failure is caught and
logged inside sendActivities, never surfaced to the caller — even though
exactly one transport call was made and failed. -/
theorem C4_counterexample :
    (fbSendActivities c4Opts (fun _ _ => .error "network failure") c4FbActivity
        [c4FbActivity]).1 = .ok [] ∧
    (fbSendActivities c4Opts (fun _ _ => .error "network failure") c4FbActivity
        [c4FbActivity]).2.length = 1 := by
  decide

/-- Claim C4 as amended: the Twilio adapter surfaces a transport failure —
the promise rejects with it after exactly one transport attempt, so there
is no retry — while the Facebook adapter catches the failure, records no
response for the failed activity, resolves normally, and likewise attempts
the transport at most once per Message activity. -/
theorem C4_amended_transport_failures :
    (∀ num create a e, a.type = ActivityType.message →
        create (activityToTwilio num a) = .error e →
        twilioSendActivities num create [a] = (.error e, [activityToTwilio num a])) ∧
    (∀ opts callAPI ctx a m, a.type = ActivityType.message →
        activityToFacebook a = .ok m →
        (∀ api m', ∃ e, callAPI api m' = Except.error e) →
        (fbSendActivities opts callAPI ctx [a]).1 = .ok [] ∧
        (fbSendActivities opts callAPI ctx [a]).2.length ≤ 1) := by
  constructor
  · intro num create a e ht hc
    simp [twilioSendActivities, twilioSendLoop, ht, hc]
  · intro opts callAPI ctx a m ht hm hfail
    unfold fbSendActivities fbSendLoop
    rw [if_pos ht, hm]
    cases hapi : getAPI opts ctx with
    | error e => simp [fbSendLoop]
    | ok o =>
        cases o with
        | none => simp [fbSendLoop]
        | some api =>
            obtain ⟨e, he⟩ := hfail api m
            simp [he, fbSendLoop]

/-- Witness for the amended C4 at concrete failing transports on both
adapters. -/
theorem C4_witness :
    twilioSendActivities "100" (fun _ => .error "boom") [c4TwilioActivity] =
      (.error "boom", [activityToTwilio "100" c4TwilioActivity]) ∧
    (fbSendActivities c4Opts (fun _ _ => .error "boom") c4FbActivity [c4FbActivity]).1 = .ok [] ∧
    (fbSendActivities c4Opts (fun _ _ => .error "boom") c4FbActivity [c4FbActivity]).2.length ≤ 1 := by
  have h1 := C4_amended_transport_failures.1 "100" (fun _ => .error "boom")
    c4TwilioActivity "boom" rfl rfl
  have h2 := C4_amended_transport_failures.2 c4Opts (fun _ _ => .error "boom")
    c4FbActivity c4FbActivity
    { recipient_id := some (.str "u1")
      text := some (.str "hello")
      sticker_id := none
      attachment := none
      quick_replies := none
      messaging_type := Json.str "RESPONSE"
      tag := none
      notification_type := none
      persona_id := none
      sender_action := none }
    rfl rfl (fun api m' => ⟨"boom", rfl⟩)
  exact ⟨h1, h2.1, h2.2⟩

theorem fbBackfill_get_ne (p : Json) (k : String) (h : k ≠ "sender") :
    (fbBackfill p).get k = p.get k := by
  unfold fbBackfill
  split
  · exact Json.get_set_ne p "sender" k _ h
  · rfl

/-- The inbound Facebook chat-message payload of the C5 counterexample. -/
def c5Payload : Json :=
  .obj [("sender", .obj [("id", .str "u1")]),
        ("recipient", .obj [("id", .str "p1")]),
        ("message", .obj [("text", .str "hi")])]

/-- Counterexample to claim C5: for an ordinary Facebook chat message the
channelData handed to the logic callback is not the verbatim source
payload — the translator has copied the keys of message.message onto it
(here a top-level text field appears). -/
theorem C5_counterexample :
    (processSingleMessage c5Payload).map Activity.channelData =
      .ok (.obj [("sender", .obj [("id", .str "u1")]),
                 ("recipient", .obj [("id", .str "p1")]),
                 ("message", .obj [("text", .str "hi")]),
                 ("text", .str "hi")]) ∧
    (processSingleMessage c5Payload).map Activity.channelData ≠ .ok c5Payload := by
  decide

/-- Claim C5 as amended: channelData is the source payload except for the
extensions the translator itself applies — for a Facebook sub-event with a
message object, the message keys are flattened onto the payload; without a
message field it is verbatim; for Twilio it is the webhook event itself,
extended with a botkitEventType tag exactly when the webhook carries media.
(The opt-in sender backfill and the standby marking likewise write into the
payload before translation.) -/
theorem C5_amended_channelData_passthrough :
    (∀ p a, processSingleMessage p = .ok a → truthy (p.get "sender") = true →
        (truthy (p.get "message") = false → a.channelData = p) ∧
        (∀ mf, p.get "message" = some (.obj mf) →
            a.channelData = flattenInto p (.obj mf))) ∧
    (∀ hdr v ev, twilioVerifySignature hdr v = true →
        (twilioProcessActivity hdr v ev).dispatched.map Activity.channelData =
          [if twilioMediaCond ev then ev.set "botkitEventType" (.str "picture_message")
           else ev]) := by
  constructor
  · intro p a h hsend
    have hbf : fbBackfill p = p := by
      simp [fbBackfill, fbBackfillCond, hsend]
    simp only [processSingleMessage, hbf, jsGetField_of_truthy _ _ hsend] at h
    constructor
    · intro hmsg
      cases hr : jsGetField (p.get "recipient") "id" with
      | error e => rw [hr] at h; exact absurd h (by simp)
      | ok rid =>
          rw [hr, hmsg] at h
          simp only [Bool.false_eq_true, if_false] at h
          split at h <;> (cases h; rfl)
    · intro mf hmf
      cases hr : jsGetField (p.get "recipient") "id" with
      | error e => rw [hr] at h; exact absurd h (by simp)
      | ok rid =>
          rw [hr, hmf] at h
          simp only [truthy, truthyJ, if_true] at h
          cases h
          simp [hmf]
  · intro hdr v ev hv
    simp [twilioProcessActivity, hv, twilioBuildActivity]

/-- A postback sub-event (no message field) used by the C5 witness. -/
def c5PostbackPayload : Json :=
  .obj [("sender", .obj [("id", .str "u2")]),
        ("recipient", .obj [("id", .str "p2")]),
        ("postback", .obj [("payload", .str "GO")])]

/-- The activity the translator produces from the C5 postback payload. -/
def c5PostbackActivity : Activity :=
  { id := none
    channelId := some "facebook"
    conversation_id := some (.str "u2")
    from_id := some (.str "u2")
    from_name := some (.str "u2")
    recipient_id := some (.str "p2")
    recipient_name := some (.str "p2")
    text := some (.str "GO")
    channelData := c5PostbackPayload
    type := ActivityType.message }

/-- The activity the translator produces from the C5 message payload. -/
def c5MessageActivity : Activity :=
  { id := none
    channelId := some "facebook"
    conversation_id := some (.str "u1")
    from_id := some (.str "u1")
    from_name := some (.str "u1")
    recipient_id := some (.str "p1")
    recipient_name := some (.str "p1")
    text := some (.str "hi")
    channelData := .obj [("sender", .obj [("id", .str "u1")]),
                         ("recipient", .obj [("id", .str "p1")]),
                         ("message", .obj [("text", .str "hi")]),
                         ("text", .str "hi")]
    type := ActivityType.message }

/-- The ordinary Twilio SMS event used by the C5 witness. -/
def c5TwilioEvent : Json :=
  .obj [("Body", .str "x"), ("From", .str "+1"), ("To", .str "+2"),
        ("MessageSid", .str "SM9")]

/-- Witness for the amended C5: verbatim channelData on a postback event,
flattened channelData on a chat message, and verbatim channelData on a
Twilio webhook without media. -/
theorem C5_witness :
    processSingleMessage c5PostbackPayload = .ok c5PostbackActivity ∧
    c5PostbackActivity.channelData = c5PostbackPayload ∧
    (processSingleMessage c5Payload).map Activity.channelData =
      .ok (flattenInto c5Payload (.obj [("text", .str "hi")])) ∧
    (twilioProcessActivity (some "sig") true c5TwilioEvent).dispatched.map
        Activity.channelData = [c5TwilioEvent] := by
  have h1 := (C5_amended_channelData_passthrough.1 c5PostbackPayload c5PostbackActivity
    rfl (by decide)).1 (by decide)
  refine ⟨rfl, h1, ?_, ?_⟩
  · have h2 := (C5_amended_channelData_passthrough.1 c5Payload c5MessageActivity
      rfl (by decide)).2 [("text", .str "hi")] (by decide)
    simp [show processSingleMessage c5Payload = .ok c5MessageActivity from rfl,
      Except.map, h2]
  · have h3 := C5_amended_channelData_passthrough.2 (some "sig") true c5TwilioEvent (by decide)
    have hmc : twilioMediaCond c5TwilioEvent = false := by decide
    simpa [hmc] using h3

/-- A card-click postback notification used by the C6 counterexample. -/
def c6Postback : Json :=
  .obj [("sender", .obj [("id", .str "u")]),
        ("recipient", .obj [("id", .str "p")]),
        ("postback", .obj [("payload", .str "PB"), ("title", .str "Click")])]

/-- Counterexample to claim C6: a postback — a platform notification the
claim says is typed Event — is translated with type Message by the source
(its payload string even becomes the activity text). -/
theorem C6_counterexample :
    (processSingleMessage c6Postback).map Activity.type = .ok ActivityType.message ∧
    truthy (c6Postback.get "message") = false := by
  decide

/-- Claim C6 as amended: the translated type is Message exactly when the
sub-event carries a message object that is not an echo, or carries no
message object but a truthy postback; every other sub-event (delivery and
read receipts, opt-ins, echoes and so on) is typed Event. -/
theorem C6_amended_type_classification (p : Json) (a : Activity)
    (h : processSingleMessage p = .ok a) :
    a.type = ActivityType.message ↔
      ((truthy (p.get "message") = true ∧
          truthy (optGet (p.get "message") "is_echo") = false) ∨
       (truthy (p.get "message") = false ∧ truthy (p.get "postback") = true)) := by
  have hmsg := fbBackfill_get_ne p "message" (by decide)
  have hpb := fbBackfill_get_ne p "postback" (by decide)
  simp only [processSingleMessage] at h
  cases hs : jsGetField ((fbBackfill p).get "sender") "id" with
  | error e => rw [hs] at h; exact absurd h (by simp)
  | ok sid =>
    cases hr : jsGetField ((fbBackfill p).get "recipient") "id" with
    | error e => rw [hs, hr] at h; exact absurd h (by simp)
    | ok rid =>
        rw [hs, hr, hmsg, hpb] at h
        by_cases hm : truthy (p.get "message") = true
        · obtain ⟨mv, hmv, hmt⟩ := truthy_some _ hm
          simp only [hmv, truthy_some_eq, hmt, Option.getD_some, eq_self_iff_true,
            if_true] at h
          cases h
          by_cases he : truthy (mv.get "is_echo") = true
          · simp [hm, hmv, optGet, he, truthy_some_eq, hmt]
          · rw [Bool.not_eq_true] at he
            simp [hm, hmv, optGet, he, truthy_some_eq, hmt]
        · rw [Bool.not_eq_true] at hm
          simp only [hm, Bool.false_eq_true, if_false] at h
          by_cases hp : truthy (p.get "postback") = true
          · simp only [hp, eq_self_iff_true, if_true] at h
            cases h
            simp [hm, hp]
          · rw [Bool.not_eq_true] at hp
            simp only [hp, Bool.false_eq_true, if_false] at h
            cases h
            simp [hm, hp]

/-- An echo of a message the bot itself sent, used by the C6 witness. -/
def c6Echo : Json :=
  .obj [("sender", .obj [("id", .str "pg")]),
        ("recipient", .obj [("id", .str "u")]),
        ("message", .obj [("is_echo", .bool true), ("text", .str "out")])]

/-- The activity the translator produces from the C6 echo payload. -/
def c6EchoActivity : Activity :=
  { id := none
    channelId := some "facebook"
    conversation_id := some (.str "pg")
    from_id := some (.str "pg")
    from_name := some (.str "pg")
    recipient_id := some (.str "u")
    recipient_name := some (.str "u")
    text := some (.str "out")
    channelData := .obj [("sender", .obj [("id", .str "pg")]),
                         ("recipient", .obj [("id", .str "u")]),
                         ("message", .obj [("is_echo", .bool true), ("text", .str "out")]),
                         ("is_echo", .bool true),
                         ("text", .str "out")]
    type := ActivityType.event }

/-- Witness for the amended C6 at a concrete echoed message: the translated
activity is not typed Message. -/
theorem C6_witness :
    processSingleMessage c6Echo = .ok c6EchoActivity ∧
    c6EchoActivity.type = ActivityType.event := by
  have h := C6_amended_type_classification c6Echo c6EchoActivity rfl
  refine ⟨rfl, ?_⟩
  have hne : ¬ c6EchoActivity.type = ActivityType.message := fun hmem => by
    have hr := h.mp hmem
    revert hr
    decide
  cases hh : c6EchoActivity.type with
  | message => exact absurd hh hne
  | event => rfl

/-- The inbound SMS webhook scenario of the specification. -/
def c7Event : Json :=
  .obj [("Body", .str "hi"), ("From", .str "+15551234567"),
        ("To", .str "+15557654321"), ("MessageSid", .str "SM1")]

/-- The same webhook carrying one media attachment. -/
def c7MediaEvent : Json :=
  .obj [("Body", .str "hi"), ("From", .str "+15551234567"),
        ("To", .str "+15557654321"), ("MessageSid", .str "SM1"),
        ("NumMedia", .str "1")]

/-- Claim C7: every verified inbound Twilio SMS webhook produces exactly
one activity with id MessageSid, conversation and sender ids equal to the
From number, recipient id To, text Body and type Message; and when
NumMedia parses to a positive integer the channelData passthrough carries
the picture_message event subtype tag. -/
theorem C7_twilio_inbound_translation (hdr : Option String) (v : Bool) (ev : Json)
    (hver : twilioVerifySignature hdr v = true) :
    (twilioProcessActivity hdr v ev).dispatched.map Activity.id = [ev.get "MessageSid"] ∧
    (twilioProcessActivity hdr v ev).dispatched.map Activity.conversation_id = [ev.get "From"] ∧
    (twilioProcessActivity hdr v ev).dispatched.map Activity.from_id = [ev.get "From"] ∧
    (twilioProcessActivity hdr v ev).dispatched.map Activity.recipient_id = [ev.get "To"] ∧
    (twilioProcessActivity hdr v ev).dispatched.map Activity.text = [ev.get "Body"] ∧
    (twilioProcessActivity hdr v ev).dispatched.map Activity.type = [ActivityType.message] ∧
    (∀ s n, ev.get "NumMedia" = some (.str s) → jsParseInt s = some n → 0 < n →
        (twilioProcessActivity hdr v ev).dispatched.map
          (fun a => a.channelData.get "botkitEventType") = [some (.str "picture_message")]) := by
  have hbase : (twilioProcessActivity hdr v ev).dispatched = [twilioBuildActivity ev] := by
    simp [twilioProcessActivity, hver]
  refine ⟨?_, ?_, ?_, ?_, ?_, ?_, ?_⟩
  · rw [hbase]; simp [twilioBuildActivity]
  · rw [hbase]; simp [twilioBuildActivity]
  · rw [hbase]; simp [twilioBuildActivity]
  · rw [hbase]; simp [twilioBuildActivity]
  · rw [hbase]; simp [twilioBuildActivity]
  · rw [hbase]; simp [twilioBuildActivity]
  · intro s n hs hp hn
    have hne : s ≠ "" := jsParseInt_ne_empty s n hp
    have hcond : twilioMediaCond ev = true := by
      simp [twilioMediaCond, hs, truthy_some_eq, truthyJ, hne, jsParseIntJson, hp, hn]
    obtain ⟨fs, hfs⟩ := get_some_obj ev "NumMedia" _ hs
    rw [hbase]
    simp only [List.map_cons, List.map_nil, twilioBuildActivity, hcond, if_true]
    rw [hfs, Json.get_set_self]

/-- Witness for C7 at the SMS scenario of the specification and at a
webhook carrying one media attachment. -/
theorem C7_witness :
    (twilioProcessActivity (some "sig") true c7Event).dispatched.map Activity.id =
      [some (.str "SM1")] ∧
    (twilioProcessActivity (some "sig") true c7Event).dispatched.map
      Activity.conversation_id = [some (.str "+15551234567")] ∧
    (twilioProcessActivity (some "sig") true c7Event).dispatched.map Activity.from_id =
      [some (.str "+15551234567")] ∧
    (twilioProcessActivity (some "sig") true c7Event).dispatched.map Activity.recipient_id =
      [some (.str "+15557654321")] ∧
    (twilioProcessActivity (some "sig") true c7Event).dispatched.map Activity.text =
      [some (.str "hi")] ∧
    (twilioProcessActivity (some "sig") true c7Event).dispatched.map Activity.type =
      [ActivityType.message] ∧
    (twilioProcessActivity (some "sig") true c7MediaEvent).dispatched.map
      (fun a => a.channelData.get "botkitEventType") = [some (.str "picture_message")] := by
  have h1 := C7_twilio_inbound_translation (some "sig") true c7Event (by decide)
  have h2 := C7_twilio_inbound_translation (some "sig") true c7MediaEvent (by decide)
  refine ⟨?_, ?_, ?_, ?_, ?_, ?_, ?_⟩
  · rw [h1.1]; decide
  · rw [h1.2.1]; decide
  · rw [h1.2.2.1]; decide
  · rw [h1.2.2.2.1]; decide
  · rw [h1.2.2.2.2.1]; decide
  · rw [h1.2.2.2.2.2.1]
  · exact h2.2.2.2.2.2.2 "1" 1 (by decide) (by decide) (by decide)

theorem fbApplyChannelFields_recipient (cd : Json) (base : FbOutMessage) :
    (fbApplyChannelFields cd base).recipient_id = base.recipient_id := by
  simp only [fbApplyChannelFields, updateWhen, apply_ite FbOutMessage.recipient_id,
    ite_self]

theorem fbApplyChannelFields_text (cd : Json) (base : FbOutMessage) :
    (fbApplyChannelFields cd base).text = base.text := by
  simp only [fbApplyChannelFields, updateWhen, apply_ite FbOutMessage.text, ite_self]

theorem activityToFacebook_recipient_text (a : Activity) (m : FbOutMessage)
    (h : activityToFacebook a = .ok m) :
    m.recipient_id = a.conversation_id ∧ m.text = a.text := by
  simp only [activityToFacebook] at h
  by_cases hcd : truthyJ a.channelData = true
  · simp only [hcd, eq_self_iff_true, if_true] at h
    by_cases hq : truthy (a.channelData.get "quick_replies") = true
    · simp only [hq, eq_self_iff_true, if_true] at h
      cases hqr : a.channelData.get "quick_replies" with
      | none => rw [hqr] at h; exact absurd h (by simp)
      | some j =>
          rw [hqr] at h
          cases j with
          | arr items =>
              cases h
              exact ⟨fbApplyChannelFields_recipient _ _, fbApplyChannelFields_text _ _⟩
          | null => exact absurd h (by simp)
          | bool b => exact absurd h (by simp)
          | num n => exact absurd h (by simp)
          | str s => exact absurd h (by simp)
          | obj fs => exact absurd h (by simp)
    · rw [Bool.not_eq_true] at hq
      simp only [hq, Bool.false_eq_true, if_false] at h
      cases h
      exact ⟨fbApplyChannelFields_recipient _ _, fbApplyChannelFields_text _ _⟩
  · rw [Bool.not_eq_true] at hcd
    simp only [hcd, Bool.false_eq_true, if_false] at h
    cases h
    exact ⟨rfl, rfl⟩

theorem psm_ids_of_sender (p : Json) (a : Activity)
    (h : processSingleMessage p = .ok a) (hsend : truthy (p.get "sender") = true) :
    a.conversation_id = optGet (p.get "sender") "id" ∧
    a.from_id = optGet (p.get "sender") "id" := by
  have hbf : fbBackfill p = p := by
    simp [fbBackfill, fbBackfillCond, hsend]
  simp only [processSingleMessage, hbf, jsGetField_of_truthy _ _ hsend] at h
  cases hr : jsGetField (p.get "recipient") "id" with
  | error e => rw [hr] at h; exact absurd h (by simp)
  | ok rid =>
      rw [hr] at h
      by_cases hmsg : truthy (p.get "message") = true
      · obtain ⟨mv, hmv, hmt⟩ := truthy_some _ hmsg
        simp only [hmv, truthy_some_eq, hmt, eq_self_iff_true, if_true,
          Option.getD_some] at h
        cases h
        exact ⟨rfl, rfl⟩
      · rw [Bool.not_eq_true] at hmsg
        simp only [hmsg, Bool.false_eq_true, if_false] at h
        by_cases hpb : truthy (p.get "postback") = true
        · simp only [hpb, eq_self_iff_true, if_true] at h
          cases h
          exact ⟨rfl, rfl⟩
        · rw [Bool.not_eq_true] at hpb
          simp only [hpb, Bool.false_eq_true, if_false] at h
          cases h
          exact ⟨rfl, rfl⟩

theorem psm_text_of_message (p : Json) (a : Activity) (mv : Json)
    (h : processSingleMessage p = .ok a) (hmv : p.get "message" = some mv)
    (hmt : truthyJ mv = true) : a.text = mv.get "text" := by
  have hmg := fbBackfill_get_ne p "message" (by decide)
  simp only [processSingleMessage] at h
  cases hs : jsGetField ((fbBackfill p).get "sender") "id" with
  | error e => rw [hs] at h; exact absurd h (by simp)
  | ok sid =>
    cases hr : jsGetField ((fbBackfill p).get "recipient") "id" with
    | error e => rw [hs, hr] at h; exact absurd h (by simp)
    | ok rid =>
        rw [hs, hr, hmg, hmv] at h
        simp only [truthy_some_eq, hmt, eq_self_iff_true, if_true, Option.getD_some] at h
        cases h
        rfl

/-- Claim C8: round-trip of each platform. Twilio: the outbound body equals
the inbound Body and the outbound target number equals the activity
conversation id, which is the inbound From number. Facebook: the outbound
text equals the activity text — which for a message sub-event is the
inbound message text — and the outbound recipient equals the inbound
sender id. -/
theorem C8_roundtrip_preservation :
    (∀ hdr v num ev, twilioVerifySignature hdr v = true →
        (twilioProcessActivity hdr v ev).dispatched.map
          (fun a => (activityToTwilio num a).body) = [ev.get "Body"] ∧
        (twilioProcessActivity hdr v ev).dispatched.map
          (fun a => (activityToTwilio num a).to_number) = [ev.get "From"] ∧
        (twilioProcessActivity hdr v ev).dispatched.map Activity.conversation_id =
          [ev.get "From"]) ∧
    (∀ p a m, processSingleMessage p = .ok a → activityToFacebook a = .ok m →
        m.text = a.text ∧
        (truthy (p.get "sender") = true →
            m.recipient_id = optGet (p.get "sender") "id") ∧
        (∀ mv, p.get "message" = some mv → truthyJ mv = true →
            m.text = mv.get "text")) := by
  constructor
  · intro hdr v num ev hver
    have hbase : (twilioProcessActivity hdr v ev).dispatched = [twilioBuildActivity ev] := by
      simp [twilioProcessActivity, hver]
    refine ⟨?_, ?_, ?_⟩ <;>
      (rw [hbase]; simp [activityToTwilio, twilioBuildActivity, apply_ite])
  · intro p a m hpa hm
    obtain ⟨hrec, htex⟩ := activityToFacebook_recipient_text a m hm
    refine ⟨htex, ?_, ?_⟩
    · intro hsend
      rw [hrec, (psm_ids_of_sender p a hpa hsend).1]
    · intro mv h1 h2
      rw [htex, psm_text_of_message p a mv hpa h1 h2]

/-- The outbound Facebook message produced from the round-tripped chat
message of the C8 witness. -/
def c8FbOutbound : FbOutMessage :=
  { recipient_id := some (.str "u1")
    text := some (.str "hi")
    sticker_id := none
    attachment := none
    quick_replies := none
    messaging_type := Json.str "RESPONSE"
    tag := none
    notification_type := none
    persona_id := none
    sender_action := none }

/-- Witness for C8: round-tripping the SMS scenario webhook preserves Body
and From, and round-tripping a Facebook chat message preserves the message
text and the sender id. -/
theorem C8_witness :
    (twilioProcessActivity (some "sig") true c7Event).dispatched.map
      (fun a => (activityToTwilio "+15550000000" a).body) = [some (.str "hi")] ∧
    (twilioProcessActivity (some "sig") true c7Event).dispatched.map
      (fun a => (activityToTwilio "+15550000000" a).to_number) =
        [some (.str "+15551234567")] ∧
    activityToFacebook c5MessageActivity = .ok c8FbOutbound ∧
    c8FbOutbound.text = some (.str "hi") ∧
    c8FbOutbound.recipient_id = some (.str "u1") := by
  have h1 := C8_roundtrip_preservation.1 (some "sig") true "+15550000000" c7Event (by decide)
  have h2 := C8_roundtrip_preservation.2 c5Payload c5MessageActivity c8FbOutbound rfl rfl
  refine ⟨?_, ?_, rfl, ?_, ?_⟩
  · rw [h1.1]; decide
  · rw [h1.2.1]; decide
  · rw [h2.2.2 (.obj [("text", .str "hi")]) (by decide) (by decide)]; decide
  · rw [h2.2.1 (by decide)]; decide

/-- A sub-event whose sender object is present but carries no id, together
with an opt-in user reference: the payload of the C9 counterexample. -/
def c9SenderNoId : Json :=
  .obj [("sender", .obj []),
        ("optin", .obj [("user_ref", .str "REF")]),
        ("recipient", .obj [("id", .str "p1")])]

/-- Counterexample to claim C9: this sub-event lacks a sender id yet
carries an opt-in user reference, but the translated from_id is undefined
rather than the reference — the source only backfills when the whole
sender object is falsy, and a truthy sender without an id skips the
backfill. -/
theorem C9_counterexample :
    (processSingleMessage c9SenderNoId).map Activity.from_id = .ok none ∧
    optGet (c9SenderNoId.get "optin") "user_ref" = some (.str "REF") := by
  decide

/-- Claim C9 as amended: for every sub-event whose sender field is falsy
(absent) and whose optin.user_ref is truthy, the translated from_id — and
with it the conversation id — equals the opt-in user reference. -/
theorem C9_amended_optin_backfill (p : Json) (a : Activity)
    (hsender : truthy (p.get "sender") = false)
    (hopt : truthy (p.get "optin") = true)
    (href : truthy (optGet (p.get "optin") "user_ref") = true)
    (h : processSingleMessage p = .ok a) :
    a.from_id = optGet (p.get "optin") "user_ref" ∧
    a.conversation_id = optGet (p.get "optin") "user_ref" := by
  obtain ⟨uv, huv, huvt⟩ := truthy_some _ href
  obtain ⟨ov, hov, hovt⟩ := truthy_some _ hopt
  obtain ⟨fs, hfs⟩ := get_some_obj p "optin" ov hov
  have hcond : fbBackfillCond p = true := by
    simp [fbBackfillCond, hsender, hopt, href]
  have hbf : fbBackfill p = p.set "sender" (Json.obj [("id", uv)]) := by
    simp [fbBackfill, hcond, huv]
  have hsid : jsGetField ((fbBackfill p).get "sender") "id" = .ok (some uv) := by
    rw [hbf, hfs, Json.get_set_self]
    simp [jsGetField, Json.get, List.lookup]
  have hmg : (fbBackfill p).get "message" = p.get "message" := fbBackfill_get_ne p "message" (by decide)
  have hpg : (fbBackfill p).get "postback" = p.get "postback" := fbBackfill_get_ne p "postback" (by decide)
  simp only [processSingleMessage, hsid] at h
  cases hr : jsGetField ((fbBackfill p).get "recipient") "id" with
  | error e => rw [hr] at h; exact absurd h (by simp)
  | ok rid =>
      rw [hr, hmg, hpg] at h
      rw [huv]
      by_cases hm : truthy (p.get "message") = true
      · obtain ⟨mv, hmv, hmt⟩ := truthy_some _ hm
        simp only [hmv, truthy_some_eq, hmt, eq_self_iff_true, if_true,
          Option.getD_some] at h
        cases h
        exact ⟨rfl, rfl⟩
      · rw [Bool.not_eq_true] at hm
        simp only [hm, Bool.false_eq_true, if_false] at h
        by_cases hp : truthy (p.get "postback") = true
        · simp only [hp, eq_self_iff_true, if_true] at h
          cases h
          exact ⟨rfl, rfl⟩
        · rw [Bool.not_eq_true] at hp
          simp only [hp, Bool.false_eq_true, if_false] at h
          cases h
          exact ⟨rfl, rfl⟩

/-- A sub-event with no sender at all and an opt-in reference, for the C9
witness. -/
def c9OptinPayload : Json :=
  .obj [("optin", .obj [("user_ref", .str "R")]),
        ("recipient", .obj [("id", .str "p1")])]

/-- The activity translated from the C9 opt-in payload. -/
def c9OptinActivity : Activity :=
  { id := none
    channelId := some "facebook"
    conversation_id := some (.str "R")
    from_id := some (.str "R")
    from_name := some (.str "R")
    recipient_id := some (.str "p1")
    recipient_name := some (.str "p1")
    text := some Json.null
    channelData := .obj [("optin", .obj [("user_ref", .str "R")]),
                         ("recipient", .obj [("id", .str "p1")]),
                         ("sender", .obj [("id", .str "R")])]
    type := ActivityType.event }

/-- Witness for the amended C9 at a concrete opt-in sub-event. -/
theorem C9_witness :
    processSingleMessage c9OptinPayload = .ok c9OptinActivity ∧
    c9OptinActivity.from_id = some (.str "R") ∧
    c9OptinActivity.conversation_id = some (.str "R") := by
  have h := C9_amended_optin_backfill c9OptinPayload c9OptinActivity
    (by decide) (by decide) (by decide) rfl
  refine ⟨rfl, ?_, ?_⟩
  · rw [h.1]; decide
  · rw [h.2]; decide

/-- Claim C10: in multi-tenancy mode (no truthy static access_token but a
truthy activity recipient id), getAPI resolves the token through
getAccessTokenForPage applied to the page id — the recipient id, or the
sender id when the activity is an echo — and throws instead of returning a
client whenever the resolved token is falsy. -/
theorem C10_getAPI_multitenancy (opts : FacebookAdapterOptions) (a : Activity)
    (hmt : strTruthy opts.access_token = false)
    (hrec : truthy a.recipient_id = true) :
    (∀ t, opts.getAccessTokenForPage (fbPageIdOf a) = some t → t ≠ "" →
        getAPI opts a = .ok (some ⟨t, opts.app_secret, opts.api_host, opts.api_version⟩)) ∧
    (opts.getAccessTokenForPage (fbPageIdOf a) = none →
        getAPI opts a = .error "Missing credentials for page.") ∧
    (opts.getAccessTokenForPage (fbPageIdOf a) = some "" →
        getAPI opts a = .error "Missing credentials for page.") ∧
    (fbIsEcho a = true → fbPageIdOf a = a.from_id) ∧
    (fbIsEcho a = false → fbPageIdOf a = a.recipient_id) := by
  refine ⟨?_, ?_, ?_, ?_, ?_⟩
  · intro t hl ht
    simp [getAPI, hmt, hrec, hl, ht]
  · intro hl
    simp [getAPI, hmt, hrec, hl]
  · intro hl
    simp [getAPI, hmt, hrec, hl]
  · intro he
    simp [fbPageIdOf, he]
  · intro he
    simp [fbPageIdOf, he]

/-- Multi-tenancy options for the C10 witness: no static token, a lookup
that resolves page pg to a token and page p2 to an empty token. -/
def c10Opts : FacebookAdapterOptions :=
  { access_token := none
    app_secret := "S"
    api_host := "graph.facebook.com"
    api_version := "v3.2"
    getAccessTokenForPage := fun p =>
      if p = some (Json.str "pg") then some "tok"
      else if p = some (Json.str "p2") then some "" else none }

/-- A normal inbound activity addressed to page pg. -/
def c10Activity : Activity :=
  { id := none
    channelId := some "facebook"
    conversation_id := some (.str "u")
    from_id := some (.str "u")
    from_name := some (.str "u")
    recipient_id := some (.str "pg")
    recipient_name := some (.str "pg")
    text := some (.str "hi")
    channelData := .obj [("sender", .obj [("id", .str "u")]),
                         ("recipient", .obj [("id", .str "pg")])]
    type := ActivityType.message }

/-- An echo activity: the page pg appears as the sender and the user as
the recipient, and channelData.message.is_echo is strictly true. -/
def c10EchoActivity : Activity :=
  { id := none
    channelId := some "facebook"
    conversation_id := some (.str "pg")
    from_id := some (.str "pg")
    from_name := some (.str "pg")
    recipient_id := some (.str "u")
    recipient_name := some (.str "u")
    text := some (.str "out")
    channelData := .obj [("sender", .obj [("id", .str "pg")]),
                         ("recipient", .obj [("id", .str "u")]),
                         ("message", .obj [("is_echo", .bool true)])]
    type := ActivityType.event }

/-- An activity addressed to a page whose resolved token is empty. -/
def c10EmptyTokenActivity : Activity :=
  { id := none
    channelId := some "facebook"
    conversation_id := some (.str "u")
    from_id := some (.str "u")
    from_name := some (.str "u")
    recipient_id := some (.str "p2")
    recipient_name := some (.str "p2")
    text := some (.str "hi")
    channelData := .obj [("sender", .obj [("id", .str "u")]),
                         ("recipient", .obj [("id", .str "p2")])]
    type := ActivityType.message }

/-- Witness for C10: the normal activity resolves the recipient page token;
the echo activity resolves through its sender page; the empty-token page
makes getAPI throw. -/
theorem C10_witness :
    getAPI c10Opts c10Activity =
      .ok (some ⟨"tok", "S", "graph.facebook.com", "v3.2"⟩) ∧
    fbPageIdOf c10EchoActivity = c10EchoActivity.from_id ∧
    getAPI c10Opts c10EchoActivity =
      .ok (some ⟨"tok", "S", "graph.facebook.com", "v3.2"⟩) ∧
    getAPI c10Opts c10EmptyTokenActivity = .error "Missing credentials for page." := by
  have h1 := C10_getAPI_multitenancy c10Opts c10Activity (by decide) (by decide)
  have h2 := C10_getAPI_multitenancy c10Opts c10EchoActivity (by decide) (by decide)
  have h3 := C10_getAPI_multitenancy c10Opts c10EmptyTokenActivity (by decide) (by decide)
  refine ⟨?_, ?_, ?_, ?_⟩
  · exact h1.1 "tok" (by decide) (by decide)
  · exact h2.2.2.2.1 (by decide)
  · exact h2.1 "tok" (by decide) (by decide)
  · exact h3.2.2.1 (by decide)
